import Mathlib

/-!
Verification of the cross-store consistency-checking core of the
I_Medata_Moshe_Barda_Python repository: the pandas-based dataframe equality
validator and record existence validators (core/validation/base_validator.py),
the PyArrow/PostgreSQL type-compatibility mapper
(tests/data validation/test_schema_consistency.py), the S3 client error
handling (core/aws/aws_client.py), the parquet export key schemes
(external/parquet/export_parquet.py and tests), and the HTTP API key gate
(core/api/dependencies/auth.py and core/api/routes).

Scalar cell values are modelled by `Val`: integers, strings, and a `null`
constructor standing for pandas missing values (NaN / None / NaT).  Equality
of `Val` makes `null = null` hold, which models the documented semantics of
`DataFrame.equals` / `Series.equals` ("NaNs in the same location are
considered equal") that the validator relies on.  Sorting places `null`
last, modelling `sort_values`'s default `na_position='last'`.
-/

/-- A scalar cell value of a dataframe: an integer, a string, or a missing
value (pandas NaN/None/NaT). -/
inductive Val : Type where
  | int (n : Int) : Val
  | str (s : String) : Val
  | null : Val
deriving DecidableEq

/-- Boolean `≤` on characters (code-point order), used for the
lexicographic string order that `sort_values` applies to string columns. -/
def charLe (a b : Char) : Bool := decide (a ≤ b)

/-- Lexicographic `≤` on lists induced by a boolean `≤` on elements: a
strictly smaller head decides, tied heads defer to the tails.  This is the
ordering pandas uses for multi-column sort keys (and, at the character
level, for strings). -/
def lexLeBy (le : α → α → Bool) : List α → List α → Bool
  | [], _ => true
  | _ :: _, [] => false
  | a :: as, b :: bs =>
    if le a b then (if le b a then lexLeBy le as bs else true) else false

/-- Boolean `≤` on strings: lexicographic on the character data. -/
def strLe (s t : String) : Bool := lexLeBy charLe s.data t.data

/-- Boolean `≤` on scalar values.  Same-constructor comparisons use the
value order; `null` sorts after everything (pandas `na_position='last'`);
the remaining cross-constructor cases never arise inside a well-typed
column and are fixed arbitrarily (int before str). -/
def valLe : Val → Val → Bool
  | .int m, .int n => decide (m ≤ n)
  | .int _, .str _ => true
  | .int _, .null => true
  | .str _, .int _ => false
  | .str s, .str t => strLe s t
  | .str _, .null => true
  | .null, .null => true
  | .null, _ => false

theorem lexLeBy_total (le : α → α → Bool) (htot : ∀ a b, le a b = true ∨ le b a = true) :
    ∀ xs ys : List α, lexLeBy le xs ys = true ∨ lexLeBy le ys xs = true
  | [], _ => Or.inl rfl
  | _ :: _, [] => Or.inr rfl
  | a :: as, b :: bs => by
    rcases htot a b with hab | hba
    · by_cases hba' : le b a = true
      · rcases lexLeBy_total le htot as bs with h | h
        · exact Or.inl (by simp [lexLeBy, hab, hba', h])
        · exact Or.inr (by simp [lexLeBy, hab, hba', h])
      · exact Or.inl (by simp [lexLeBy, hab, hba'])
    · by_cases hab' : le a b = true
      · rcases lexLeBy_total le htot as bs with h | h
        · exact Or.inl (by simp [lexLeBy, hab', hba, h])
        · exact Or.inr (by simp [lexLeBy, hab', hba, h])
      · exact Or.inr (by simp [lexLeBy, hba, hab'])

theorem lexLeBy_trans (le : α → α → Bool)
    (htr : ∀ a b c, le a b = true → le b c = true → le a c = true) :
    ∀ {xs ys zs : List α}, lexLeBy le xs ys = true → lexLeBy le ys zs = true →
      lexLeBy le xs zs = true
  | [], _, _, _, _ => rfl
  | _ :: _, [], _, h1, _ => by simp [lexLeBy] at h1
  | _ :: _, _ :: _, [], _, h2 => by simp [lexLeBy] at h2
  | a :: as, b :: bs, c :: cs, h1, h2 => by
    simp only [lexLeBy] at h1 h2 ⊢
    by_cases hab : le a b = true
    · by_cases hbc : le b c = true
      · have hac : le a c = true := htr a b c hab hbc
        simp only [hab, if_true] at h1
        simp only [hbc, if_true] at h2
        simp only [hac, if_true]
        by_cases hca : le c a = true
        · have hcb : le c b = true := htr c a b hca hab
          have hba : le b a = true := htr b c a hbc hca
          simp only [hba, if_true] at h1
          simp only [hcb, if_true] at h2
          simp [lexLeBy_trans le htr h1 h2]
        · simp [hca]
      · simp [hbc] at h2
    · simp [hab] at h1

theorem charLe_total (a b : Char) : charLe a b = true ∨ charLe b a = true := by
  simp only [charLe, decide_eq_true_eq]
  exact le_total a b

theorem charLe_trans (a b c : Char) : charLe a b = true → charLe b c = true →
    charLe a c = true := by
  simp only [charLe, decide_eq_true_eq]
  exact le_trans

theorem valLe_total (a b : Val) : valLe a b = true ∨ valLe b a = true := by
  cases a <;> cases b <;> simp [valLe, strLe]
  · exact Int.le_total _ _
  · exact lexLeBy_total charLe charLe_total _ _

theorem valLe_trans (a b c : Val) : valLe a b = true → valLe b c = true →
    valLe a c = true := by
  cases a <;> cases b <;> cases c <;>
    simp only [valLe, strLe, decide_eq_true_eq] <;>
    intro h1 h2 <;> first
      | rfl
      | omega
      | exact lexLeBy_trans charLe charLe_trans h1 h2
      | exact h1
      | exact h2
      | exact absurd h1 Bool.false_ne_true
      | exact absurd h2 Bool.false_ne_true

/-- Two sorted lists that are permutations of each other, over a relation
that is antisymmetric on the elements actually present, are equal.  This is
what makes sorting both sides by a uniquely-ordering key canonical. -/
theorem eq_of_perm_of_sorted_of_antisymm {α : Type} {r : α → α → Prop} :
    ∀ {l₁ l₂ : List α}, l₁.Perm l₂ → l₁.Sorted r → l₂.Sorted r →
      (∀ a ∈ l₁, ∀ b ∈ l₁, r a b → r b a → a = b) → l₁ = l₂
  | [], l₂, hp, _, _, _ => (hp.symm.eq_nil).symm
  | a :: t₁, [], hp, _, _, _ => hp.eq_nil
  | a :: t₁, b :: t₂, hp, hs₁, hs₂, hanti => by
    have hab : a = b := by
      by_cases h : a = b
      · exact h
      · have hbmem : b ∈ a :: t₁ := hp.mem_iff.mpr (List.mem_cons_self b t₂)
        have hamem : a ∈ b :: t₂ := hp.mem_iff.mp (List.mem_cons_self a t₁)
        have hbt₁ : b ∈ t₁ := by
          cases List.mem_cons.mp hbmem with
          | inl hh => exact absurd hh.symm h
          | inr hh => exact hh
        have hat₂ : a ∈ t₂ := by
          cases List.mem_cons.mp hamem with
          | inl hh => exact absurd hh h
          | inr hh => exact hh
        have h1 : r a b := List.rel_of_sorted_cons hs₁ b hbt₁
        have h2 : r b a := List.rel_of_sorted_cons hs₂ a hat₂
        exact hanti a (List.mem_cons_self a t₁) b hbmem h1 h2
    subst hab
    have hp' : t₁.Perm t₂ := hp.cons_inv
    have ih := eq_of_perm_of_sorted_of_antisymm hp' hs₁.of_cons hs₂.of_cons
      (fun x hx y hy hxy hyx =>
        hanti x (List.mem_cons_of_mem a hx) y (List.mem_cons_of_mem a hy) hxy hyx)
    rw [ih]

/-- The Python exception kinds that the embedded operations can raise.
`validationError` carries the formatted message of
`core.validation.base_validator.ValidationError`; `keyError` carries the
column names a pandas lookup failed on; the remaining constructors model
the exceptions raised by `core.aws.aws_client.AWSClient`. -/
inductive PyErr : Type where
  | validationError (msg : String) : PyErr
  | keyError (cols : List String) : PyErr
  | permissionError (msg : String) : PyErr
  | valueError (msg : String) : PyErr
  | clientError (code : String) : PyErr
deriving DecidableEq

/-- A pandas DataFrame: an ordered list of (column name, dtype string)
pairs and a list of rows, each row listing its cells in column order.
The integer positional index added by `reset_index(drop=True)` is implicit
in the list order. -/
structure DataFrame : Type where
  cols : List (String × String)
  rows : List (List Val)
deriving DecidableEq

/-- The column names of a dataframe, in order (`df.columns`). -/
def DataFrame.colNames (df : DataFrame) : List String := df.cols.map Prod.fst

/-- `df.empty` in pandas: true when either axis has length zero. -/
def DataFrame.empty (df : DataFrame) : Bool :=
  decide (df.rows = [] ∨ df.cols = [])

/-- Position of a named column (first occurrence, like a pandas lookup on
a uniquely-named column index). -/
def colIndex (cols : List (String × String)) (n : String) : Option Nat :=
  List.findIdx? (fun p => decide (p.1 = n)) cols

/-- The sort key `sort_values(by=byCols)` extracts from one row: the cells
of the named columns in the order given by `by`. -/
def rowKey (cols : List (String × String)) (byCols : List String) (row : List Val) :
    List Val :=
  byCols.map fun n =>
    match colIndex cols n with
    | some i => row.getD i .null
    | none => .null

/-- Row comparison used by `sort_values`: lexicographic on the extracted
sort keys, ascending, nulls last. -/
def rowLe (cols : List (String × String)) (byCols : List String)
    (r1 r2 : List Val) : Bool :=
  lexLeBy valLe (rowKey cols byCols r1) (rowKey cols byCols r2)

/-- Deterministic comparison sort of the rows by the given sort columns,
modelling `df.sort_values(by=byCols)`. -/
def sortRows (cols : List (String × String)) (byCols : List String)
    (rows : List (List Val)) : List (List Val) :=
  rows.insertionSort (fun r1 r2 => rowLe cols byCols r1 r2 = true)

/-- The sort columns that are absent from the dataframe; pandas raises
`KeyError` on them. -/
def missingCols (df : DataFrame) (byCols : List String) : List String :=
  byCols.filter fun n => decide (n ∉ df.colNames)

/-- A dataframe with its rows sorted by the given sort columns (the result
of a successful `sort_values` + `reset_index`). -/
def sortedDF (df : DataFrame) (byCols : List String) : DataFrame :=
  ⟨df.cols, sortRows df.cols byCols df.rows⟩

/-- `df.sort_values(by=byCols).reset_index(drop=True)`: `KeyError` if a
sort column is missing, otherwise the rows permuted into key order. -/
def sortValues (df : DataFrame) (byCols : List String) : Except PyErr DataFrame :=
  if missingCols df byCols = [] then
    .ok (sortedDF df byCols)
  else
    .error (.keyError (missingCols df byCols))

/-- `df[n]`: the named column as a series (dtype, cell list), `none` when
the name is absent (pandas raises `KeyError`). -/
def getColumn (df : DataFrame) (n : String) : Option (String × List Val) :=
  match colIndex df.cols n with
  | some i => some ((df.cols.getD i ("", "")).2, df.rows.map fun r => r.getD i .null)
  | none => none

/-- `Series.equals`: same dtype and elementwise-equal cells, where two
missing values at the same position count as equal (which is definitional
equality of `Val` here, `null = null`). -/
def seriesEquals (s1 s2 : String × List Val) : Bool :=
  decide (s1.1 = s2.1 ∧ s1.2 = s2.2)

/-- `DataFrame.equals`: identical column names, dtypes and order, and
elementwise-equal cells with missing values at the same location equal. -/
def dfEquals (a e : DataFrame) : Bool :=
  decide (a.cols = e.cols ∧ a.rows = e.rows)

/-- Python dict lookup in a `{column: dtype}` dict built from the column
index (first binding wins, matching a uniquely-keyed dict). -/
def dictLookup (l : List (String × String)) (k : String) : Option String :=
  (l.find? fun p => decide (p.1 = k)).map Prod.snd

/-- Python `==` on two `{column: dtype}` dicts: the same keys bound to the
same values, irrespective of insertion order. -/
def dictEqB (a e : List (String × String)) : Bool :=
  (a.all fun p => decide (dictLookup a p.1 = dictLookup e p.1)) &&
    (e.all fun p => decide (dictLookup a p.1 = dictLookup e p.1))

/-- An ASCII single-quote character, as it appears in the validator's
messages. -/
def quoteMark : String := String.singleton (Char.ofNat 39)

/-- One entry of the dtype-mismatch report:
`Column 'col' has mismatched types: Expected te, got ta` (with `te` the
expected dataframe's dtype and `ta` the actual's). -/
def dtypeDiffEntry (col te ta : String) : String :=
  "Column " ++ quoteMark ++ col ++ quoteMark ++ " has mismatched types: Expected " ++ te ++
    ", got " ++ ta

/-- One entry of the value-mismatch report. -/
def valueDiffEntry (col : String) : String :=
  "Column " ++ quoteMark ++ col ++ quoteMark ++ " has mismatched values"

/-- The dtype-mismatch differences list: for each column of the actual
dtypes dict that is also in the expected dict with a different dtype, one
formatted entry.  Columns present in only one dataframe contribute
nothing. -/
def dtypeDifferences (a e : List (String × String)) : List String :=
  a.filterMap fun p =>
    match dictLookup a p.1, dictLookup e p.1 with
    | some ta, some te => if ta = te then none else some (dtypeDiffEntry p.1 te ta)
    | _, _ => none

/-- The dtype-mismatch `ValidationError` message. -/
def dtypeMismatchMsg (context : String) (a e : List (String × String)) : String :=
  "DataFrame dtypes are not equal" ++ context ++ ". Differences found: " ++
    String.intercalate ", " (dtypeDifferences a e)

/-- The value-mismatch `ValidationError` message. -/
def valueMismatchMsg (context : String) (differences : List String) : String :=
  "DataFrames are not equal" ++ context ++ ". Differences found: " ++
    String.intercalate ", " differences

/-- The per-column value comparison loop: for each column of the actual
dataframe in order, compare the two series; a missing column on the
expected side raises `KeyError` (pandas `expected_df[col]`), a series
mismatch contributes the column's entry. -/
def valueDifferencesAux (a e : DataFrame) :
    List (String × String) → Except PyErr (List String)
  | [] => .ok []
  | (n, _) :: rest =>
    match getColumn a n, getColumn e n with
    | some sa, some se =>
      if seriesEquals sa se then valueDifferencesAux a e rest
      else (valueDifferencesAux a e rest).map (valueDiffEntry n :: ·)
    | _, _ => .error (.keyError [n])

/-- The full value-mismatch differences list over the actual dataframe's
columns. -/
def valueDifferences (a e : DataFrame) : Except PyErr (List String) :=
  valueDifferencesAux a e a.cols

/-- `BaseValidator.validate_dataframe_equality`.  Sorts both dataframes by
`sort_by` (defaulting to all columns of `actual_df`), optionally compares
the per-column dtypes, then compares values; raises `ValidationError` with
the formatted message on a mismatch.  `ignore_index` is accepted but never
read by the source. -/
def validate_dataframe_equality (actual_df expected_df : DataFrame)
    (ignore_index : Bool) (sort_by : Option (List String)) (check_dtype : Bool)
    (description : String) : Except PyErr Unit :=
  let context := if description = "" then "" else " for " ++ description
  let sort_columns := sort_by.getD actual_df.colNames
  match sortValues actual_df sort_columns, sortValues expected_df sort_columns with
  | .error err, _ => .error err
  | .ok _, .error err => .error err
  | .ok a, .ok e =>
    if check_dtype ∧ ¬ dictEqB a.cols e.cols = true then
      .error (.validationError (dtypeMismatchMsg context a.cols e.cols))
    else if ¬ dfEquals a e = true then
      match valueDifferences a e with
      | .error err => .error err
      | .ok differences =>
        .error (.validationError (valueMismatchMsg context differences))
    else
      .ok ()

/-- `BaseValidator.validate_record_exists`: raises when the dataframe is
empty; the identifier, table name and context only shape the message. -/
def validate_record_exists (record : DataFrame) (identifier : String)
    (table_name : String) (context : String) : Except PyErr Unit :=
  if record.empty then
    .error (.validationError
      ("Record" ++ (if table_name = "" then "" else " in " ++ table_name) ++
        (if context = "" then "" else " for " ++ context) ++
        " with identifier " ++ quoteMark ++ identifier ++ quoteMark ++ " not found"))
  else
    .ok ()

/-- `BaseValidator.validate_record_not_exists`: raises when the dataframe
is non-empty. -/
def validate_record_not_exists (record : DataFrame) (identifier : String)
    (table_name : String) (context : String) : Except PyErr Unit :=
  if ¬ record.empty = true then
    .error (.validationError
      ("Record" ++ (if table_name = "" then "" else " in " ++ table_name) ++
        (if context = "" then "" else " for " ++ context) ++
        " with identifier " ++ quoteMark ++ identifier ++ quoteMark ++
        " exists when it should not"))
  else
    .ok ()

/-- Discriminates success from failure of an embedded call. -/
def isOkB : Except PyErr Unit → Bool
  | .ok _ => true
  | .error _ => false

/-- The kind of outcome of an embedded call, erasing messages: 0 success,
1 `ValidationError`, 2 `KeyError`, 3 `PermissionError`, 4 `ValueError`,
5 re-raised `ClientError`. -/
def resultKind : Except PyErr Unit → Nat
  | .ok _ => 0
  | .error (.validationError _) => 1
  | .error (.keyError _) => 2
  | .error (.permissionError _) => 3
  | .error (.valueError _) => 4
  | .error (.clientError _) => 5

/-- Is `needle` a prefix of the second list? -/
def listPrefixOf : List Char → List Char → Bool
  | [], _ => true
  | _ :: _, [] => false
  | a :: as, b :: bs => decide (a = b) && listPrefixOf as bs

/-- Is `needle` a contiguous sublist of the second list? -/
def listInfixOf (needle : List Char) : List Char → Bool
  | [] => listPrefixOf needle []
  | c :: rest => listPrefixOf needle (c :: rest) || listInfixOf needle rest

/-- Python substring containment `needle in hay`. -/
def containsSub (hay needle : String) : Bool := listInfixOf needle.data hay.data

/-- Python `str.lower()` on the ASCII type names involved here: lower-case
each character. -/
def strToLower (s : String) : String := String.mk (s.data.map Char.toLower)

/-- `is_compatible_type` from tests/data validation/test_schema_consistency.py:
whether a PyArrow (columnar) type name is an acceptable representation of a
PostgreSQL (relational) column type, by an ordered first-match rule list. -/
def is_compatible_type (pa_type0 pg_type0 : String) : Bool :=
  let pa_type := strToLower pa_type0
  let pg_type := strToLower pg_type0
  if decide (pg_type ∈ ["character varying", "text", "varchar"]) then
    containsSub pa_type "string"
  else if decide (pg_type ∈ ["double precision", "float8", "real"]) then
    containsSub pa_type "double" || containsSub pa_type "float"
  else if decide (pg_type ∈ ["integer", "int"]) then
    containsSub pa_type "int"
  else if pg_type = "date" then
    containsSub pa_type "date" || containsSub pa_type "timestamp" ||
      containsSub pa_type "string"
  else if pg_type = "time without time zone" then
    containsSub pa_type "time" || containsSub pa_type "string"
  else if containsSub pg_type "timestamp" then
    containsSub pa_type "timestamp" || containsSub pa_type "string"
  else
    false

/-- Modelled from the spec wording of section 4.1 (the ordered rule list,
first match wins, no match means incompatible), stated over already
lowercase type names, to be compared with the source's
`is_compatible_type`. -/
def is_compatible_spec (pa_type pg_type : String) : Bool :=
  if decide (pg_type ∈ ["character varying", "text", "varchar"]) then
    containsSub pa_type "string"
  else if decide (pg_type ∈ ["double precision", "float8", "real"]) then
    containsSub pa_type "double" || containsSub pa_type "float"
  else if decide (pg_type ∈ ["integer", "int"]) then
    containsSub pa_type "int"
  else if pg_type = "date" then
    containsSub pa_type "date" || containsSub pa_type "timestamp" ||
      containsSub pa_type "string"
  else if pg_type = "time without time zone" then
    containsSub pa_type "time" || containsSub pa_type "string"
  else if containsSub pg_type "timestamp" then
    containsSub pa_type "timestamp" || containsSub pa_type "string"
  else
    false

/-- Outcome of one underlying boto3 S3 call: a successful response carrying
its payload, or a `botocore` `ClientError` with an error code. -/
inductive S3CallResult (α : Type) : Type where
  | success (a : α) : S3CallResult α
  | clientError (code : String) : S3CallResult α
deriving DecidableEq

/-- `AWSClient.list_objects`: on success returns the listed keys (empty
when the response has no Contents); a 403 `ClientError` is swallowed and
returns the empty list; any other `ClientError` is re-raised. -/
def list_objects (resp : S3CallResult (Option (List String))) :
    Except PyErr (List String) :=
  match resp with
  | .success none => .ok []
  | .success (some keys) => .ok keys
  | .clientError code =>
    if code = "403" then .ok [] else .error (.clientError code)

/-- `AWSClient.write_parquet`: `NoSuchBucket` becomes `ValueError`, 403
becomes `PermissionError`, other `ClientError`s re-raise. -/
def write_parquet (bucket key : String) (resp : S3CallResult Unit) :
    Except PyErr Unit :=
  match resp with
  | .success _ => .ok ()
  | .clientError code =>
    if code = "NoSuchBucket" then
      .error (.valueError ("S3 bucket does not exist: " ++ bucket))
    else if code = "403" then
      .error (.permissionError ("Access denied to write to S3: " ++ bucket ++ "/" ++ key))
    else
      .error (.clientError code)

/-- `AWSClient.delete_s3_object`: 403 becomes `PermissionError`, other
`ClientError`s re-raise. -/
def delete_s3_object (bucket key : String) (resp : S3CallResult Unit) :
    Except PyErr Unit :=
  match resp with
  | .success _ => .ok ()
  | .clientError code =>
    if code = "403" then
      .error (.permissionError
        ("Access denied to delete S3 object: " ++ bucket ++ "/" ++ key))
    else
      .error (.clientError code)

/-- The object key built by the standalone export script
external/parquet/export_parquet.py for one table:
`{prefix}/{table}/{table}.parquet` (no timestamp). -/
def export_s3_key (keyPrefix table : String) : String :=
  keyPrefix ++ "/" ++ table ++ "/" ++ table ++ ".parquet"

/-- The object key built by the CRUD tests
(tests/data validation/test_crud_operations.py):
`raw/parquet/{table}/{table}_{timestamp}.parquet`. -/
def crud_s3_key (table timestamp : String) : String :=
  "raw/parquet/" ++ table ++ "/" ++ table ++ "_" ++ timestamp ++ ".parquet"

/-- `verify_api_key` from core/api/dependencies/auth.py: equality against
the fixed secret. -/
def verify_api_key (x_api_key : String) : Bool :=
  decide (x_api_key = "test_api_key")

/-- The `GET /health` handler (core/api/routes/system.py).  It declares no
header dependency and performs no key check, so the response is computed
from the clock alone; the request's `X-API-Key` header (if any) is passed
here only to model the incoming request and is never read. -/
def health_check (x_api_key : Option String) (now : String) :
    Except Nat (String × String) :=
  .ok ("healthy", now)

/-- The `GET /api/v1/patients/(patient_id)` handler
(core/api/routes/patients.py): requires the `X-API-Key` header, answers 401
on a key mismatch, 404 when the database row is absent, else the row.
The database lookup outcome is supplied as `db_patient`. -/
def get_patient (patient_id : String) (x_api_key : String)
    (db_patient : Option (List (String × Val))) :
    Except Nat (List (String × Val)) :=
  if ¬ verify_api_key x_api_key = true then .error 401
  else
    match db_patient with
    | none => .error 404
    | some p => .ok p

/-- The `GET /api/v1/patients/(patient_id)/lab_results` handler
(core/api/routes/lab_results.py): requires the `X-API-Key` header, answers
401 on a key mismatch, 404 when the patient row is absent, else the joined
lab-result rows.  The two database lookups are supplied as arguments. -/
def get_patient_lab_results (patient_id : String) (x_api_key : String)
    (patient_found : Bool) (results : List (List (String × Val))) :
    Except Nat (List (List (String × Val))) :=
  if ¬ verify_api_key x_api_key = true then .error 401
  else if ¬ patient_found = true then .error 404
  else .ok results

/-- Outcomes of the embedded validators can be compared decidably, so the
concrete scenarios below evaluate inside the logic. -/
instance exceptPyErrUnitDecEq : DecidableEq (Except PyErr Unit) := fun a b =>
  match a, b with
  | .ok (), .ok () => isTrue rfl
  | .ok (), .error _ => isFalse fun h => Except.noConfusion h
  | .error _, .ok () => isFalse fun h => Except.noConfusion h
  | .error e1, .error e2 =>
    match decEq e1 e2 with
    | isTrue h => isTrue (h ▸ rfl)
    | isFalse h => isFalse fun hh => h (Except.error.inj hh)

/-- Cancellation of a shared prefix and suffix in a string equation. -/
theorem string_append_middle_inj (a b ts1 ts2 : String)
    (h : a ++ ts1 ++ b = a ++ ts2 ++ b) : ts1 = ts2 := by
  have hd := congrArg String.data h
  simp only [String.data_append] at hd
  exact String.ext (List.append_cancel_left (List.append_cancel_right hd))

/-- C1: `is_compatible_type` on lowercase type names is exactly the ordered
first-match rule list of the spec (string, double/float, int, date, time,
timestamp rules, otherwise incompatible), and in particular accepts
("double", "double precision") and rejects ("string", "integer"). -/
theorem is_compatible_type_matches_rule_list :
    (∀ c r : String, strToLower c = c → strToLower r = r →
      is_compatible_type c r = is_compatible_spec c r) ∧
    is_compatible_type "double" "double precision" = true ∧
    is_compatible_type "string" "integer" = false := by
  refine ⟨fun c r hc hr => ?_, by decide, by decide⟩
  simp only [is_compatible_type, is_compatible_spec, hc, hr]

/-- Witness for C1: the rule-list equivalence applied at the concrete pair
("double", "double precision"), which is already lowercase. -/
theorem is_compatible_type_matches_rule_list_witness :
    strToLower "double" = "double" ∧
      is_compatible_type "double" "double precision" =
        is_compatible_spec "double" "double precision" :=
  ⟨by decide,
    is_compatible_type_matches_rule_list.1 "double" "double precision"
      (by decide) (by decide)⟩

/-- C7: a 403 from the object store makes `list_objects` return the empty
list and continue, while the same 403 makes `write_parquet` and
`delete_s3_object` raise `PermissionError` to the caller; neither write nor
delete ever reports success after a permission failure. -/
theorem s3_403_asymmetry :
    ∀ bucket key : String,
      list_objects (.clientError "403") = .ok ([] : List String) ∧
      write_parquet bucket key (.clientError "403") =
        .error (.permissionError
          ("Access denied to write to S3: " ++ bucket ++ "/" ++ key)) ∧
      delete_s3_object bucket key (.clientError "403") =
        .error (.permissionError
          ("Access denied to delete S3 object: " ++ bucket ++ "/" ++ key)) ∧
      isOkB (write_parquet bucket key (.clientError "403")) = false ∧
      isOkB (delete_s3_object bucket key (.clientError "403")) = false := by
  intro bucket key
  exact ⟨rfl, rfl, rfl, rfl, rfl⟩

/-- C9: `validate_record_exists` raises exactly when the dataframe is
empty and `validate_record_not_exists` exactly when it is non-empty; the
identifier, table name and context never change the accept/reject outcome;
and on any dataframe exactly one of the two validators succeeds. -/
theorem record_validators_decide_by_emptiness :
    ∀ (record : DataFrame) (i1 i2 t1 t2 c1 c2 : String),
      isOkB (validate_record_exists record i1 t1 c1) = !record.empty ∧
      isOkB (validate_record_not_exists record i1 t1 c1) = record.empty ∧
      isOkB (validate_record_exists record i1 t1 c1) =
        isOkB (validate_record_exists record i2 t2 c2) ∧
      isOkB (validate_record_not_exists record i1 t1 c1) =
        isOkB (validate_record_not_exists record i2 t2 c2) ∧
      isOkB (validate_record_exists record i1 t1 c1) =
        !isOkB (validate_record_not_exists record i1 t1 c1) := by
  intro record i1 i2 t1 t2 c1 c2
  unfold validate_record_exists validate_record_not_exists
  by_cases h : record.empty = true <;> simp [h, isOkB]

/-- Counterexample for C6: the standalone export script writes the table
`admissions` (with its configured prefix `parquet`) to a key containing no
timestamp, so the key does not have the claimed
`{prefix}/{table}/{table}_{timestamp}.parquet` shape for any timestamp;
re-running the export rewrites this same key instead of creating a new
object. -/
theorem export_script_key_has_no_timestamp :
    ¬ ∃ ts : String,
      export_s3_key "parquet" "admissions" =
        "parquet" ++ "/" ++ "admissions" ++ "/" ++ "admissions" ++ "_" ++ ts ++
          ".parquet" := by
  rintro ⟨ts, h⟩
  have hl := congrArg String.length h
  simp only [export_s3_key, String.length_append] at hl
  have e1 : ("parquet" : String).length = 7 := rfl
  have e2 : ("/" : String).length = 1 := rfl
  have e3 : ("admissions" : String).length = 10 := rfl
  have e4 : (".parquet" : String).length = 8 := rfl
  have e5 : ("_" : String).length = 1 := rfl
  rw [e1, e2, e3, e4, e5] at hl
  omega

/-- C6 (amended): the CRUD-test exports write under timestamped keys
`raw/parquet/{table}/{table}_{timestamp}.parquet`, and distinct run
timestamps give distinct keys, so each such export is a new object; the
standalone export script instead writes the fixed, timestamp-free key
`{prefix}/{table}/{table}.parquet`, which each run rewrites in place. -/
theorem export_key_schemes :
    (∀ table ts : String,
      crud_s3_key table ts =
        "raw/parquet/" ++ table ++ "/" ++ table ++ "_" ++ ts ++ ".parquet") ∧
    (∀ ts1 ts2 : String, ts1 ≠ ts2 →
      crud_s3_key "lab_results" ts1 ≠ crud_s3_key "lab_results" ts2) ∧
    (∀ keyPrefix table : String,
      export_s3_key keyPrefix table =
        keyPrefix ++ "/" ++ table ++ "/" ++ table ++ ".parquet") := by
  refine ⟨fun table ts => rfl, fun ts1 ts2 hne heq => ?_, fun p t => rfl⟩
  exact hne (string_append_middle_inj _ _ _ _ heq)

/-- Witness for C6 (amended): two concrete distinct timestamps map to
distinct keys for the `lab_results` table. -/
theorem export_key_schemes_witness :
    "20250101T000000" ≠ "20250102T000000" ∧
      crud_s3_key "lab_results" "20250101T000000" ≠
        crud_s3_key "lab_results" "20250102T000000" :=
  ⟨by decide,
    export_key_schemes.2.1 "20250101T000000" "20250102T000000" (by decide)⟩

/-- Counterexample for C8: a request to `GET /health` carrying an
`X-API-Key` header different from the fixed secret is answered
successfully, not with HTTP 401 — the health endpoint performs no key
check at all. -/
theorem health_check_accepts_wrong_key :
    health_check (some "wrong-key") "2025-01-01T00:00:00" =
        .ok ("healthy", "2025-01-01T00:00:00") ∧
      "wrong-key" ≠ "test_api_key" :=
  ⟨rfl, by decide⟩

/-- C8 (amended): the two patient endpoints require the `X-API-Key` header
and answer HTTP 401 whenever the supplied key differs from the fixed
secret, while `GET /health` performs no key check and answers successfully
regardless of the header. -/
theorem api_key_gate :
    (∀ (pid k : String) (db : Option (List (String × Val))),
      k ≠ "test_api_key" → get_patient pid k db = .error 401) ∧
    (∀ (pid k : String) (pf : Bool) (rs : List (List (String × Val))),
      k ≠ "test_api_key" → get_patient_lab_results pid k pf rs = .error 401) ∧
    (∀ (k : Option String) (now : String),
      health_check k now = .ok ("healthy", now)) := by
  refine ⟨fun pid k db hk => ?_, fun pid k pf rs hk => ?_, fun k now => rfl⟩
  · unfold get_patient verify_api_key
    simp [hk]
  · unfold get_patient_lab_results verify_api_key
    simp [hk]

/-- Witness for C8 (amended): the patient endpoint rejects the concrete
wrong key "bad-key" with 401, and the lab-results endpoint does too. -/
theorem api_key_gate_witness :
    get_patient "PAT001" "bad-key" none = .error 401 ∧
      get_patient_lab_results "PAT001" "bad-key" true [] = .error 401 :=
  ⟨api_key_gate.1 "PAT001" "bad-key" none (by decide),
    api_key_gate.2.1 "PAT001" "bad-key" true [] (by decide)⟩

/-- C10: the accept/reject outcome of `validate_dataframe_equality` does
not depend on `ignore_index` (the result is literally unchanged) nor on
`description` (only the message text changes; success and the kind of
error raised are preserved). -/
theorem validate_outcome_ignores_index_flag_and_description :
    ∀ (a e : DataFrame) (i1 i2 : Bool) (sb : Option (List String)) (cd : Bool)
      (d1 d2 : String),
      validate_dataframe_equality a e i1 sb cd d1 =
          validate_dataframe_equality a e i2 sb cd d1 ∧
      resultKind (validate_dataframe_equality a e i1 sb cd d1) =
          resultKind (validate_dataframe_equality a e i1 sb cd d2) := by
  intro a e i1 i2 sb cd d1 d2
  refine ⟨rfl, ?_⟩
  simp only [validate_dataframe_equality]
  cases h1 : sortValues a (sb.getD a.colNames) with
  | error err => simp [resultKind]
  | ok a' =>
    cases h2 : sortValues e (sb.getD a.colNames) with
    | error err => simp [resultKind]
    | ok e' =>
      by_cases hd : cd = true ∧ dictEqB a'.cols e'.cols = false
      · simp [hd, resultKind]
      · by_cases hf : dfEquals a' e' = true
        · simp [hd, hf, resultKind]
        · cases hv : valueDifferences a' e' with
          | error err => simp [hd, hf, hv, resultKind]
          | ok diffs => simp [hd, hf, hv, resultKind]

/-- A successful sort keeps the columns and reorders the rows. -/
theorem sortValues_ok (df : DataFrame) (bc : List String)
    (h : missingCols df bc = []) : sortValues df bc = .ok (sortedDF df bc) := by
  simp [sortValues, h]

/-- Sorting a dataframe by its own column list never raises. -/
theorem missingCols_self (df : DataFrame) : missingCols df df.colNames = [] := by
  simp [missingCols, List.filter_eq_nil_iff]

/-- The sorted rows are a permutation of the original rows. -/
theorem sortRows_perm (cols : List (String × String)) (bc : List String)
    (rows : List (List Val)) : (sortRows cols bc rows).Perm rows :=
  List.perm_insertionSort _ _

/-- The sorted rows are sorted for the row comparison. -/
theorem sortRows_sorted (cols : List (String × String)) (bc : List String)
    (rows : List (List Val)) :
    List.Sorted (fun r1 r2 => rowLe cols bc r1 r2 = true) (sortRows cols bc rows) := by
  haveI : IsTotal (List Val) (fun r1 r2 => rowLe cols bc r1 r2 = true) :=
    ⟨fun r1 r2 => lexLeBy_total valLe valLe_total _ _⟩
  haveI : IsTrans (List Val) (fun r1 r2 => rowLe cols bc r1 r2 = true) :=
    ⟨fun r1 r2 r3 => lexLeBy_trans valLe valLe_trans⟩
  exact List.sorted_insertionSort _ _

/-- A dtype dict equals itself. -/
theorem dictEqB_refl (c : List (String × String)) : dictEqB c c = true := by
  simp [dictEqB, List.all_eq_true]

/-- A dataframe equals itself (missing values included). -/
theorem dfEquals_refl (df : DataFrame) : dfEquals df df = true := by
  simp [dfEquals]

/-- A dict lookup misses exactly the keys that are not column names. -/
theorem dictLookup_eq_none_iff (l : List (String × String)) (n : String) :
    dictLookup l n = none ↔ n ∉ l.map Prod.fst := by
  simp only [dictLookup, Option.map_eq_none', List.find?_eq_none, List.mem_map,
    decide_eq_true_eq]
  constructor
  · intro h hx
    obtain ⟨p, hp, hpn⟩ := hx
    exact h p hp hpn
  · intro h p hp hpn
    exact h ⟨p, hp, hpn⟩

/-- A dict lookup on a present key returns some dtype. -/
theorem dictLookup_isSome_of_mem (l : List (String × String)) (n : String)
    (h : n ∈ l.map Prod.fst) : ∃ t, dictLookup l n = some t := by
  cases hl : dictLookup l n with
  | none => exact absurd ((dictLookup_eq_none_iff l n).mp hl) (not_not_intro h)
  | some t => exact ⟨t, rfl⟩

/-- A successful dict lookup is witnessed by a pair of the association
list. -/
theorem dictLookup_exists_pair (l : List (String × String)) (n t : String)
    (h : dictLookup l n = some t) : ∃ p ∈ l, p.1 = n ∧ p.2 = t := by
  unfold dictLookup at h
  rw [Option.map_eq_some'] at h
  obtain ⟨q, hq, hqt⟩ := h
  refine ⟨q, List.mem_of_find?_eq_some hq, ?_, hqt⟩
  have := List.find?_some hq
  simpa using this

/-- If the two dtype dicts disagree on any key, the Python dict comparison
is false. -/
theorem dictEqB_eq_false_of_lookup_ne (a e : List (String × String)) (n : String)
    (hne : dictLookup a n ≠ dictLookup e n) : dictEqB a e = false := by
  cases hb : dictEqB a e with
  | false => rfl
  | true =>
    exfalso
    unfold dictEqB at hb
    rw [Bool.and_eq_true, List.all_eq_true, List.all_eq_true] at hb
    obtain ⟨h1, h2⟩ := hb
    cases ha : dictLookup a n with
    | some t =>
      obtain ⟨p, hp, hpn, _⟩ := dictLookup_exists_pair a n t ha
      have hpp := h1 p hp
      rw [decide_eq_true_eq, hpn] at hpp
      exact hne hpp
    | none =>
      cases he : dictLookup e n with
      | some t =>
        obtain ⟨p, hp, hpn, _⟩ := dictLookup_exists_pair e n t he
        have hpp := h2 p hp
        rw [decide_eq_true_eq, hpn] at hpp
        exact hne hpp
      | none => exact hne (ha.trans he.symm)

/-- The Python dict comparison is false exactly when some key's binding
differs. -/
theorem dictEqB_eq_false_iff (a e : List (String × String)) :
    dictEqB a e = false ↔ ∃ n, dictLookup a n ≠ dictLookup e n := by
  constructor
  · intro h
    by_contra hx
    push_neg at hx
    have : dictEqB a e = true := by
      unfold dictEqB
      rw [Bool.and_eq_true, List.all_eq_true, List.all_eq_true]
      exact ⟨fun p _ => by rw [decide_eq_true_eq]; exact hx p.1,
        fun p _ => by rw [decide_eq_true_eq]; exact hx p.1⟩
    rw [h] at this
    exact Bool.false_ne_true this
  · rintro ⟨n, hn⟩
    exact dictEqB_eq_false_of_lookup_ne a e n hn

/-- A column lookup succeeds exactly on the dataframe's column names. -/
theorem getColumn_isSome_iff (df : DataFrame) (n : String) :
    (getColumn df n).isSome = true ↔ n ∈ df.colNames := by
  unfold getColumn colIndex DataFrame.colNames
  cases hf : List.findIdx? (fun p => decide (p.1 = n)) df.cols with
  | none =>
    rw [List.findIdx?_eq_none_iff] at hf
    constructor
    · intro h
      simp at h
    · intro hmem
      obtain ⟨p, hp, hpn⟩ := List.mem_map.mp hmem
      have := hf p hp
      rw [hpn] at this
      simp at this
  | some i =>
    rw [List.findIdx?_eq_some_iff_getElem] at hf
    obtain ⟨hlen, hpi, _⟩ := hf
    rw [decide_eq_true_eq] at hpi
    constructor
    · intro _
      exact List.mem_map.mpr ⟨df.cols[i], List.getElem_mem hlen, hpi⟩
    · intro _
      rfl

/-- Cancellation inside the `Column ...` message shapes: equal messages
name equal columns. -/
theorem string_sandwich_inj (t q s n1 n2 : String)
    (h : t ++ n1 ++ q ++ s = t ++ n2 ++ q ++ s) : n1 = n2 := by
  have hd := congrArg String.data h
  simp only [String.data_append] at hd
  exact String.ext
    (List.append_cancel_left (List.append_cancel_right (List.append_cancel_right hd)))

/-- Two value-mismatch entries coincide only when they name the same
column. -/
theorem valueDiffEntry_inj (n1 n2 : String)
    (h : valueDiffEntry n1 = valueDiffEntry n2) : n1 = n2 :=
  string_sandwich_inj ("Column " ++ quoteMark) quoteMark " has mismatched values" n1 n2 h

/-- Every column present in both dtype dicts with disagreeing dtypes
contributes its formatted entry to the dtype differences list. -/
theorem mem_dtypeDifferences (a e : List (String × String)) (col ta te : String)
    (ha : dictLookup a col = some ta) (he : dictLookup e col = some te)
    (hne : ta ≠ te) : dtypeDiffEntry col te ta ∈ dtypeDifferences a e := by
  obtain ⟨p, hp, hpn, _⟩ := dictLookup_exists_pair a col ta ha
  refine List.mem_filterMap.mpr ⟨p, hp, ?_⟩
  rw [hpn, ha, he]
  simp [hne]

/-- When every offered column name is present in both dataframes, the value
comparison loop completes without `KeyError` and returns exactly the
entries of the columns whose series differ. -/
theorem valueDifferencesAux_ok (a e : DataFrame) :
    ∀ cl : List (String × String),
      (∀ p ∈ cl, p.1 ∈ a.colNames) → (∀ p ∈ cl, p.1 ∈ e.colNames) →
      valueDifferencesAux a e cl = .ok (cl.filterMap fun p =>
        match getColumn a p.1, getColumn e p.1 with
        | some sa, some se =>
          if seriesEquals sa se then none else some (valueDiffEntry p.1)
        | _, _ => none)
  | [], _, _ => rfl
  | (n, t) :: rest, hA, hE => by
    have hAn : n ∈ a.colNames := hA (n, t) (List.mem_cons_self _ _)
    have hEn : n ∈ e.colNames := hE (n, t) (List.mem_cons_self _ _)
    obtain ⟨sa, hsa⟩ := Option.isSome_iff_exists.mp ((getColumn_isSome_iff a n).mpr hAn)
    obtain ⟨se, hse⟩ := Option.isSome_iff_exists.mp ((getColumn_isSome_iff e n).mpr hEn)
    have ih := valueDifferencesAux_ok a e rest
      (fun p hp => hA p (List.mem_cons_of_mem _ hp))
      (fun p hp => hE p (List.mem_cons_of_mem _ hp))
    simp only [valueDifferencesAux, hsa, hse, List.filterMap_cons]
    by_cases hq : seriesEquals sa se = true
    · simp [hq, ih]
    · simp [hq, ih, Except.map]

/-- A column whose two series agree (missing values at equal positions
included) is never reported among the value differences. -/
theorem not_mem_valueDifferencesAux (a e : DataFrame) (col : String)
    (s : String × List Val) (ha : getColumn a col = some s)
    (he : getColumn e col = some s) :
    ∀ (cl : List (String × String)) (diffs : List String),
      valueDifferencesAux a e cl = .ok diffs → valueDiffEntry col ∉ diffs
  | [], diffs, hok => by
    simp only [valueDifferencesAux] at hok
    cases hok
    simp
  | (n, t) :: rest, diffs, hok => by
    simp only [valueDifferencesAux] at hok
    cases hga : getColumn a n with
    | none => rw [hga] at hok; simp at hok
    | some sa =>
      cases hge : getColumn e n with
      | none => rw [hga, hge] at hok; simp at hok
      | some se =>
        simp only [hga, hge] at hok
        by_cases hq : seriesEquals sa se = true
        · rw [if_pos hq] at hok
          exact not_mem_valueDifferencesAux a e col s ha he rest diffs hok
        · rw [if_neg hq] at hok
          cases hrest : valueDifferencesAux a e rest with
          | error err => rw [hrest] at hok; simp [Except.map] at hok
          | ok L =>
            rw [hrest] at hok
            simp only [Except.map] at hok
            cases hok
            intro hmem
            cases List.mem_cons.mp hmem with
            | inl heq =>
              have hcn : col = n := valueDiffEntry_inj _ _ heq
              subst hcn
              rw [ha] at hga
              rw [he] at hge
              cases hga
              cases hge
              exact hq (by simp [seriesEquals])
            | inr hmem' =>
              exact not_mem_valueDifferencesAux a e col s ha he rest L hrest hmem'

/-- Counterexample for C2: with `check_dtype = true`, an expected dataframe
carrying an extra declared column `b` (so the per-column declared types
differ at `b`) makes the validator raise a `ValidationError` whose message
is the bare dtype-mismatch header: it does not name `b` (nor its types),
because the difference loop only reports columns present in both dicts. -/
theorem dtype_error_omits_one_sided_columns :
    validate_dataframe_equality
        ⟨[("a", "int64")], [[.int 1]]⟩
        ⟨[("a", "int64"), ("b", "int64")], [[.int 1, .int 2]]⟩
        true (some ["a"]) true "" =
      .error (.validationError "DataFrame dtypes are not equal. Differences found: ") ∧
    dictLookup [("a", "int64")] "b" ≠
      dictLookup [("a", "int64"), ("b", "int64")] "b" ∧
    containsSub "DataFrame dtypes are not equal. Differences found: " "b" = false := by
  refine ⟨?_, by decide, by decide⟩
  decide

/-- C2 (amended): with `check_dtype = true` and sort columns present in
both dataframes, any difference between the per-column declared-type dicts
makes `validate_dataframe_equality` raise the dtype `ValidationError`
(before any value comparison), and the report names every column present
in both dataframes whose declared types differ, together with both types;
columns present in only one dataframe trigger the error but are not
named. -/
theorem dtype_mismatch_raises_and_names_shared_columns :
    ∀ (actual expected : DataFrame) (i : Bool) (sb : Option (List String))
      (d : String),
      missingCols actual (sb.getD actual.colNames) = [] →
      missingCols expected (sb.getD actual.colNames) = [] →
      (∃ n, dictLookup actual.cols n ≠ dictLookup expected.cols n) →
      validate_dataframe_equality actual expected i sb true d =
        .error (.validationError (dtypeMismatchMsg
          (if d = "" then "" else " for " ++ d) actual.cols expected.cols)) ∧
      (∀ col ta te, dictLookup actual.cols col = some ta →
        dictLookup expected.cols col = some te → ta ≠ te →
        dtypeDiffEntry col te ta ∈ dtypeDifferences actual.cols expected.cols) := by
  intro actual expected i sb d hma hme hdn
  obtain ⟨n, hn⟩ := hdn
  have hfalse : dictEqB actual.cols expected.cols = false :=
    dictEqB_eq_false_of_lookup_ne _ _ n hn
  constructor
  · simp only [validate_dataframe_equality]
    rw [sortValues_ok actual _ hma, sortValues_ok expected _ hme]
    simp [sortedDF, hfalse]
  · intro col ta te ha he hne
    exact mem_dtypeDifferences _ _ col ta te ha he hne

/-- Witness for C2 (amended): a shared column `a` declared `int64` on one
side and `float64` on the other is both detected and named with both
types. -/
theorem dtype_mismatch_witness :
    validate_dataframe_equality ⟨[("a", "int64")], [[.int 1]]⟩
        ⟨[("a", "float64")], [[.int 1]]⟩ true (some ["a"]) true "" =
      .error (.validationError (dtypeMismatchMsg "" [("a", "int64")]
        [("a", "float64")])) ∧
    dtypeDiffEntry "a" "float64" "int64" ∈
      dtypeDifferences [("a", "int64")] [("a", "float64")] :=
  ⟨((dtype_mismatch_raises_and_names_shared_columns
      ⟨[("a", "int64")], [[.int 1]]⟩ ⟨[("a", "float64")], [[.int 1]]⟩
      true (some ["a"]) ""
      (by decide) (by decide) ⟨"a", by decide⟩).1),
    ((dtype_mismatch_raises_and_names_shared_columns
      ⟨[("a", "int64")], [[.int 1]]⟩ ⟨[("a", "float64")], [[.int 1]]⟩
      true (some ["a"]) ""
      (by decide) (by decide) ⟨"a", by decide⟩).2 "a" "int64" "float64"
      (by decide) (by decide) (by decide))⟩

/-- Counterexample for C4: when the actual dataframe has a column `b` that
the expected dataframe lacks, the default sort (by all of actual's
columns) raises a `KeyError` — an error of another kind — rather than the
claimed `ValidationError`. -/
theorem missing_column_escapes_as_keyerror :
    validate_dataframe_equality
        ⟨[("a", "int64"), ("b", "int64")], [[.int 1, .int 2]]⟩
        ⟨[("a", "int64")], [[.int 1]]⟩
        true none true "" =
      .error (.keyError ["b"]) ∧
    "b" ∈ (⟨[("a", "int64"), ("b", "int64")], [[.int 1, .int 2]]⟩ :
      DataFrame).colNames ∧
    "b" ∉ (⟨[("a", "int64")], [[.int 1]]⟩ : DataFrame).colNames := by
  refine ⟨?_, by decide, by decide⟩
  decide

/-- C4 (amended): provided the sort columns exist in both dataframes and
every column of the actual dataframe also exists in the expected one, a
column-set difference (the expected side carrying an extra column) makes
`validate_dataframe_equality` raise a `ValidationError`; but in the
mirrored situation (see the counterexample) the structural mismatch
escapes as a `KeyError` instead. -/
theorem extra_expected_column_raises_validation_error :
    ∀ (actual expected : DataFrame) (i cd : Bool) (sb : Option (List String))
      (d : String),
      missingCols actual (sb.getD actual.colNames) = [] →
      missingCols expected (sb.getD actual.colNames) = [] →
      (∀ n ∈ actual.colNames, n ∈ expected.colNames) →
      (∃ n ∈ expected.colNames, n ∉ actual.colNames) →
      resultKind (validate_dataframe_equality actual expected i sb cd d) = 1 := by
  intro actual expected i cd sb d hma hme hsub hex
  obtain ⟨n, hne, hna⟩ := hex
  have hLa : dictLookup actual.cols n = none := (dictLookup_eq_none_iff _ _).mpr hna
  obtain ⟨t, hLe⟩ := dictLookup_isSome_of_mem expected.cols n hne
  have hfalse : dictEqB actual.cols expected.cols = false := by
    apply dictEqB_eq_false_of_lookup_ne _ _ n
    rw [hLa, hLe]
    simp
  simp only [validate_dataframe_equality]
  rw [sortValues_ok actual _ hma, sortValues_ok expected _ hme]
  cases cd with
  | true => simp [sortedDF, hfalse, resultKind]
  | false =>
    have hcols : actual.cols ≠ expected.cols := by
      intro hcc
      apply hna
      show n ∈ actual.cols.map Prod.fst
      rw [hcc]
      exact hne
    have hA : ∀ p ∈ actual.cols, p.1 ∈ actual.colNames :=
      fun p hp => List.mem_map.mpr ⟨p, hp, rfl⟩
    have hE : ∀ p ∈ actual.cols, p.1 ∈ expected.colNames :=
      fun p hp => hsub p.1 (hA p hp)
    have hok := valueDifferencesAux_ok
      (sortedDF actual (sb.getD actual.colNames))
      (sortedDF expected (sb.getD actual.colNames)) actual.cols hA hE
    simp only [sortedDF] at hok
    simp [sortedDF, hfalse, dfEquals, hcols, valueDifferences, hok, resultKind]

/-- C5: in the value comparison, two missing values at corresponding
positions count as equal: validating a dataframe against an identical one
(missing cells included) succeeds silently, and a column whose two series
agree — with nulls at the same positions — is never reported as a
mismatch. -/
theorem null_cells_compare_equal :
    (∀ (df : DataFrame) (i cd : Bool) (d : String),
      validate_dataframe_equality df df i none cd d = .ok ()) ∧
    (∀ (a e : DataFrame) (col : String) (s : String × List Val)
      (diffs : List String),
      getColumn a col = some s → getColumn e col = some s →
      valueDifferences a e = .ok diffs → valueDiffEntry col ∉ diffs) := by
  constructor
  · intro df i cd d
    have hm := missingCols_self df
    simp only [validate_dataframe_equality, Option.getD_none]
    rw [sortValues_ok df df.colNames hm]
    simp [dictEqB_refl, dfEquals_refl]
  · intro a e col s diffs ha he hok
    exact not_mem_valueDifferencesAux a e col s ha he a.cols diffs hok

/-- Witness for C5: a dataframe with a null cell validates against an
identical copy, and the all-null column `b` is not reported even when the
unrelated column `a` mismatches. -/
theorem null_cells_compare_equal_witness :
    validate_dataframe_equality
        ⟨[("a", "int64"), ("b", "float64")], [[.int 1, .null]]⟩
        ⟨[("a", "int64"), ("b", "float64")], [[.int 1, .null]]⟩
        true none true "" = .ok () ∧
    valueDiffEntry "b" ∉ [valueDiffEntry "a"] :=
  ⟨null_cells_compare_equal.1
      ⟨[("a", "int64"), ("b", "float64")], [[.int 1, .null]]⟩ true true "",
    null_cells_compare_equal.2
      ⟨[("a", "int64"), ("b", "float64")], [[.int 1, .null]]⟩
      ⟨[("a", "int64"), ("b", "float64")], [[.int 2, .null]]⟩
      "b" ("float64", [.null]) [valueDiffEntry "a"]
      (by decide) (by decide) (by rfl)⟩

/-- Counterexample for C3: two single-row dataframes with the same column
set `{a, b}`, the same per-name dtypes, and the same row (as a mapping from
column name to value), but with the columns stored in different orders,
make `validate_dataframe_equality` raise (with an empty difference list)
instead of succeeding: the comparison demands identical column order. -/
theorem reordered_columns_fail_despite_equal_content :
    validate_dataframe_equality
        ⟨[("a", "int64"), ("b", "int64")], [[.int 1, .int 2]]⟩
        ⟨[("b", "int64"), ("a", "int64")], [[.int 2, .int 1]]⟩
        true (some ["a"]) true "" =
      .error (.validationError "DataFrames are not equal. Differences found: ") ∧
    (["a", "b"] : List String).Perm ["b", "a"] ∧
    dictLookup [("a", "int64"), ("b", "int64")] "a" =
      dictLookup [("b", "int64"), ("a", "int64")] "a" ∧
    dictLookup [("a", "int64"), ("b", "int64")] "b" =
      dictLookup [("b", "int64"), ("a", "int64")] "b" ∧
    (List.zip ["a", "b"] [Val.int 1, Val.int 2]).Perm
      (List.zip ["b", "a"] [Val.int 2, Val.int 1]) := by
  exact ⟨by decide, by decide, by decide, by decide, by decide⟩

/-- C3 (amended): for dataframes with identical column lists (names,
dtypes and order), sort columns present in the dataframes, and a sort key
that orders the rows uniquely, `validate_dataframe_equality` succeeds on
any two row-permutations of the same rows; and when, after sorting, some
column's series differ, it raises a `ValidationError` whose differences
name every such column. -/
theorem sorted_row_order_insensitive_equality :
    (∀ (actual expected : DataFrame) (i cd : Bool) (scs : List String)
      (d : String),
      actual.cols = expected.cols →
      missingCols actual scs = [] →
      actual.rows.Perm expected.rows →
      (∀ r1 ∈ actual.rows, ∀ r2 ∈ actual.rows,
        rowLe actual.cols scs r1 r2 = true → rowLe actual.cols scs r2 r1 = true →
        r1 = r2) →
      validate_dataframe_equality actual expected i (some scs) cd d = .ok ()) ∧
    (∀ (actual expected : DataFrame) (i cd : Bool) (scs : List String)
      (d col : String),
      actual.cols = expected.cols →
      missingCols actual scs = [] →
      col ∈ actual.colNames →
      getColumn (sortedDF actual scs) col ≠ getColumn (sortedDF expected scs) col →
      ∃ diffs, validate_dataframe_equality actual expected i (some scs) cd d =
          .error (.validationError
            (valueMismatchMsg (if d = "" then "" else " for " ++ d) diffs)) ∧
        valueDiffEntry col ∈ diffs) := by
  constructor
  · intro actual expected i cd scs d hcols hmiss hperm huniq
    have hnames : expected.colNames = actual.colNames := by
      unfold DataFrame.colNames
      rw [hcols]
    have hmiss2 : missingCols expected scs = [] := by
      unfold missingCols
      rw [hnames]
      exact hmiss
    have hsorted_eq : sortRows actual.cols scs actual.rows =
        sortRows expected.cols scs expected.rows := by
      rw [← hcols]
      apply eq_of_perm_of_sorted_of_antisymm
        (r := fun r1 r2 => rowLe actual.cols scs r1 r2 = true)
      · exact (sortRows_perm _ _ _).trans
          (hperm.trans (sortRows_perm actual.cols scs expected.rows).symm)
      · exact sortRows_sorted _ _ _
      · exact sortRows_sorted _ _ _
      · intro x hx y hy hxy hyx
        exact huniq x ((sortRows_perm actual.cols scs actual.rows).mem_iff.mp hx)
          y ((sortRows_perm actual.cols scs actual.rows).mem_iff.mp hy) hxy hyx
    have hdict : dictEqB actual.cols expected.cols = true := by
      rw [hcols]
      exact dictEqB_refl _
    simp only [validate_dataframe_equality, Option.getD_some]
    rw [sortValues_ok actual scs hmiss, sortValues_ok expected scs hmiss2]
    rw [hcols] at hsorted_eq
    simp [sortedDF, dictEqB_refl, dfEquals, hcols, hsorted_eq]
  · intro actual expected i cd scs d col hcols hmiss hmem hser
    have hnames : expected.colNames = actual.colNames := by
      unfold DataFrame.colNames
      rw [hcols]
    have hmiss2 : missingCols expected scs = [] := by
      unfold missingCols
      rw [hnames]
      exact hmiss
    have hmemE : col ∈ expected.colNames := by
      rw [hnames]
      exact hmem
    obtain ⟨sa, hsa⟩ := Option.isSome_iff_exists.mp
      ((getColumn_isSome_iff (sortedDF actual scs) col).mpr hmem)
    obtain ⟨se, hse⟩ := Option.isSome_iff_exists.mp
      ((getColumn_isSome_iff (sortedDF expected scs) col).mpr hmemE)
    have hne : ¬ seriesEquals sa se = true := by
      intro hq
      apply hser
      rw [hsa, hse]
      unfold seriesEquals at hq
      rw [decide_eq_true_eq] at hq
      rw [Prod.ext hq.1 hq.2]
    have hA : ∀ p ∈ actual.cols, p.1 ∈ actual.colNames :=
      fun p hp => List.mem_map.mpr ⟨p, hp, rfl⟩
    have hE : ∀ p ∈ actual.cols, p.1 ∈ expected.colNames := by
      intro p hp
      rw [hnames]
      exact hA p hp
    have hok := valueDifferencesAux_ok (sortedDF actual scs)
      (sortedDF expected scs) actual.cols hA hE
    have hrows : sortRows actual.cols scs actual.rows ≠
        sortRows expected.cols scs expected.rows := by
      intro heq
      apply hser
      unfold sortedDF
      rw [heq, hcols]
    have hdict : dictEqB actual.cols expected.cols = true := by
      rw [hcols]
      exact dictEqB_refl _
    have hdfe : dfEquals (sortedDF actual scs) (sortedDF expected scs) = false := by
      simp [dfEquals, sortedDF, hrows]
    have hmementry : valueDiffEntry col ∈ (actual.cols.filterMap fun p =>
        match getColumn (sortedDF actual scs) p.1,
          getColumn (sortedDF expected scs) p.1 with
        | some sa', some se' =>
          if seriesEquals sa' se' = true then none else some (valueDiffEntry p.1)
        | _, _ => none) := by
      obtain ⟨q, hq, hqn⟩ := List.mem_map.mp hmem
      refine List.mem_filterMap.mpr ⟨q, hq, ?_⟩
      rw [hqn, hsa, hse]
      simp [hne]
    refine ⟨_, ?_, hmementry⟩
    simp only [validate_dataframe_equality, Option.getD_some]
    rw [sortValues_ok actual scs hmiss, sortValues_ok expected scs hmiss2]
    simp only [sortedDF] at hok hdfe
    simp [sortedDF, hdict, hdfe, valueDifferences, hok]

/-- Witness for C3 (amended): two-row dataframes holding the same rows in
opposite orders validate successfully when sorted by the unique key column
`a`; and a one-cell value difference in column `a` is raised and named. -/
theorem sorted_row_order_insensitive_equality_witness :
    validate_dataframe_equality
        ⟨[("a", "int64"), ("b", "int64")], [[.int 2, .int 20], [.int 1, .int 10]]⟩
        ⟨[("a", "int64"), ("b", "int64")], [[.int 1, .int 10], [.int 2, .int 20]]⟩
        true (some ["a"]) true "" = .ok () ∧
    (∃ diffs, validate_dataframe_equality
        ⟨[("a", "int64")], [[.int 1]]⟩ ⟨[("a", "int64")], [[.int 2]]⟩
        true (some ["a"]) true "" =
        .error (.validationError (valueMismatchMsg "" diffs)) ∧
      valueDiffEntry "a" ∈ diffs) :=
  ⟨sorted_row_order_insensitive_equality.1 _ _ true true ["a"] "" rfl (by decide)
      (by decide) (by decide),
    sorted_row_order_insensitive_equality.2 _ _ true true ["a"] "" "a" rfl
      (by decide) (by decide) (by decide)⟩

/-- Witness for C4 (amended): an expected dataframe carrying the extra
column `b` makes the validator raise a `ValidationError` (kind 1). -/
theorem extra_expected_column_witness :
    resultKind (validate_dataframe_equality
        ⟨[("a", "int64")], [[.int 1]]⟩
        ⟨[("a", "int64"), ("b", "int64")], [[.int 1, .int 2]]⟩
        true (some ["a"]) true "") = 1 :=
  extra_expected_column_raises_validation_error
    ⟨[("a", "int64")], [[.int 1]]⟩
    ⟨[("a", "int64"), ("b", "int64")], [[.int 1, .int 2]]⟩
    true true (some ["a"]) "" (by decide) (by decide) (by decide)
    ⟨"b", by decide, by decide⟩
